import Mathlib

/-!
Verification of the node-fleet lifecycle orchestrator's command dispatch
(`src/src/main.rs`).  The `main` function dispatches two subcommands:

* `install`: a root-privilege guard, then `NodeRegistry::load`, then the
  install orchestrator (mutating the registry through `&mut`), then
  `NodeRegistry::save` — reached only when `install` returned `Ok`, because
  the call is written `install(...).await?`.
* `start`: `NodeRegistry::load`, a mutual-exclusion check on
  `--service-name`/`--peer-id`, then selection by exact `service_name`
  match, by exact `peer_id` match (after parsing), or iteration over all
  `installed_nodes`; for each selected node an `RpcClient` is built at
  `127.0.0.1:<rpc_port>` and `start(&mut node, ..., &rpc_client)` is
  invoked with `?`.  The branch ends with `Ok(())` and contains no call to
  `NodeRegistry::save`.

The bodies of the collaborating modules (`control::start`, `install::install`,
`node::NodeRegistry::{load, save}`, peer-id parsing) are not part of the
repository slice; they appear here as parameters or as definitions modelled
from the spec, while `main`'s own control flow is embedded exactly.
Side effects visible to `main` (registry load/save, install call, RPC-client
construction, per-node start invocation) are recorded as an `Action` trace.
-/

namespace SnNode

/-- Modelled from the spec: the instance `status` enum of the `node` module
(not under src/), §4.3: `{Added, Installed, Running, Stopped, Removed}`. -/
inductive NodeStatus where
  | Added
  | Installed
  | Running
  | Stopped
  | Removed
deriving Repr, DecidableEq

/-- Modelled from the spec: the InstanceRecord of the `node` module (not under
src/), §3.  `main.rs` reads the fields `service_name`, `peer_id` and
`rpc_port`; the remaining fields are carried as plain data.  Peer ids are
opaque identities, represented by `Nat`. -/
structure Node where
  service_name : String
  peer_id : Option Nat
  rpc_port : Nat
  version : String
  user : String
  binary_path : String
  data_dir_path : String
  log_dir_path : String
  status : NodeStatus
deriving Repr, DecidableEq

/-- Modelled from the spec: the registry of the `node` module (not under
src/), §3 — an ordered collection of instance records; `main.rs` accesses it
through the field `installed_nodes`. -/
structure NodeRegistry where
  installed_nodes : List Node
deriving Repr, DecidableEq

/-- One observable effect of a `main` invocation, in program order:
loading the registry file, running the install orchestrator, saving the
registry file, constructing an `RpcClient` at an address, and invoking the
start orchestrator on one node (recording the address of the client passed
to it). -/
inductive Action where
  | loadRegistry
  | installCall
  | saveRegistry (reg : NodeRegistry)
  | newRpcClient (addr : String)
  | callStart (service_name : String) (addr : String)
deriving Repr, DecidableEq

/-- The errors `main` can return: the mutual-exclusion error (main.rs:95),
load failure, name lookup failure (main.rs:106), peer-id lookup failure
(main.rs:117), peer-id parse failure (main.rs:111), an error propagated from
the start orchestrator, an error propagated from the install orchestrator,
and the root-privilege error (main.rs:72). -/
inductive MainErr where
  | mutuallyExclusive
  | loadErr (e : Nat)
  | noServiceNamed (name : String)
  | noNodeWithPeerId (pid : Nat)
  | peerIdParse (s : String)
  | startErr (e : Nat)
  | installErr (e : Nat)
  | notRoot
deriving Repr, DecidableEq

/-- `format!("127.0.0.1:{}", node.rpc_port)` — main.rs:108, 123, 127. -/
def rpcAddr (port : Nat) : String := "127.0.0.1:" ++ toString port

/-- The two effects issued for one selected node: `RpcClient::new` at the
node's loopback address, then the start-orchestrator call receiving that
client (main.rs:108–109, 123–124, 127–128). -/
def nodeActs (n : Node) : List Action :=
  [Action.newRpcClient (rpcAddr n.rpc_port), Action.callStart n.service_name (rpcAddr n.rpc_port)]

/-- The all-instances loop of main.rs:126–129: for each node in registry
order, build the client and call `start`; the `?` on the call aborts the
loop at the first error.  `f` is the start orchestrator (`control::start`,
not under src/): it consumes a node and either fails or returns the node as
mutated through `&mut`.  Returns the result and the trace accumulated up to
the point the loop stopped. -/
def startAll (f : Node → Except Nat Node) :
    List Node → Except Nat (List Node) × List Action
  | [] => (Except.ok [], [])
  | n :: rest =>
    match f n with
    | Except.error e => (Except.error e, nodeActs n)
    | Except.ok n' =>
      ((startAll f rest).1.map (fun ns => n' :: ns), nodeActs n ++ (startAll f rest).2)

/-- `iter_mut().find(...)` hands `start` a `&mut` borrow of the first
matching node; writing through it updates that node in place. -/
def replaceFirst (p : Node → Bool) (n' : Node) : List Node → List Node
  | [] => []
  | n :: rest => if p n then n' :: rest else n :: replaceFirst p n' rest

/-- The `SubCmd::Start` arm of `main` (main.rs:89–132).  `f` is the start
orchestrator (`control::start`, not under src/); `parsePeerId` is
`PeerId::from_str` (external crate), `none` meaning the string does not parse.
`reg` is the registry produced by the `NodeRegistry::load` on main.rs:93,
recorded as the leading `loadRegistry` action.  Returns `main`'s result
together with the trace of effects; the arm contains no save of the
registry, so no branch emits `Action.saveRegistry`. -/
def mainStart (f : Node → Except Nat Node) (parsePeerId : String → Option Nat)
    (reg : NodeRegistry) (peer_id service_name : Option String) :
    Except MainErr NodeRegistry × List Action :=
  if service_name.isSome && peer_id.isSome then
    (Except.error MainErr.mutuallyExclusive, [Action.loadRegistry])
  else
    match service_name with
    | some name =>
      match reg.installed_nodes.find? (fun x => x.service_name == name) with
      | none => (Except.error (MainErr.noServiceNamed name), [Action.loadRegistry])
      | some node =>
        match f node with
        | Except.error e =>
          (Except.error (MainErr.startErr e), Action.loadRegistry :: nodeActs node)
        | Except.ok node' =>
          (Except.ok ⟨replaceFirst (fun x => x.service_name == name) node' reg.installed_nodes⟩,
            Action.loadRegistry :: nodeActs node)
    | none =>
      match peer_id with
      | some pidStr =>
        match parsePeerId pidStr with
        | none => (Except.error (MainErr.peerIdParse pidStr), [Action.loadRegistry])
        | some pid =>
          match reg.installed_nodes.find? (fun x => x.peer_id == some pid) with
          | none => (Except.error (MainErr.noNodeWithPeerId pid), [Action.loadRegistry])
          | some node =>
            match f node with
            | Except.error e =>
              (Except.error (MainErr.startErr e), Action.loadRegistry :: nodeActs node)
            | Except.ok node' =>
              (Except.ok ⟨replaceFirst (fun x => x.peer_id == some pid) node' reg.installed_nodes⟩,
                Action.loadRegistry :: nodeActs node)
      | none =>
        match startAll f reg.installed_nodes with
        | (Except.error e, acts) =>
          (Except.error (MainErr.startErr e), Action.loadRegistry :: acts)
        | (Except.ok ns, acts) => (Except.ok ⟨ns⟩, Action.loadRegistry :: acts)

/-- The `SubCmd::Install` arm of `main` (main.rs:66–88).  `isRoot` is the
value of `is_running_as_root()`; `loadReg` the outcome of
`NodeRegistry::load` (main.rs:74); `installFn` the install orchestrator
(`install::install`, not under src/), which mutates the registry through
`&mut` — it returns its `Result` paired with the registry as left in memory,
so a failing run still leaves its partial mutations in the second component.
The save on main.rs:86 runs only when `install` returned `Ok`, because the
call is written `install(...).await?`. -/
def mainInstall (isRoot : Bool) (loadReg : Except Nat NodeRegistry)
    (installFn : NodeRegistry → Except Nat Unit × NodeRegistry) :
    Except MainErr NodeRegistry × List Action :=
  if !isRoot then
    (Except.error MainErr.notRoot, [])
  else
    match loadReg with
    | Except.error e => (Except.error (MainErr.loadErr e), [Action.loadRegistry])
    | Except.ok reg =>
      match installFn reg with
      | (Except.error e, _) =>
        (Except.error (MainErr.installErr e), [Action.loadRegistry, Action.installCall])
      | (Except.ok _, newReg) =>
        (Except.ok newReg,
          [Action.loadRegistry, Action.installCall, Action.saveRegistry newReg])

/-- `is_running_as_root` for unix targets (main.rs:136–139):
`users::get_effective_uid() == 0`. -/
def is_running_as_root_unix (effective_uid : Nat) : Bool := effective_uid == 0

/-- `is_running_as_root` for windows targets (main.rs:141–145): always
`true`. -/
def is_running_as_root_windows : Bool := true

/-- Whether an action persists the registry. -/
def Action.isSave : Action → Bool
  | Action.saveRegistry _ => true
  | _ => false

/-- How many times a trace persists the registry. -/
def saveCount (acts : List Action) : Nat := acts.countP Action.isSave

/-- The service names on which the start orchestrator was invoked, in
invocation order. -/
def startCalls (acts : List Action) : List String :=
  acts.filterMap (fun a =>
    match a with
    | Action.callStart s _ => some s
    | _ => none)

/-- Whether a result is the root-privilege rejection of main.rs:72. -/
def isNotRootErr : Except MainErr NodeRegistry → Bool
  | Except.error MainErr.notRoot => true
  | _ => false

/- ### Helper lemmas -/

theorem startAll_no_save (f : Node → Except Nat Node) (ns : List Node) :
    saveCount (startAll f ns).2 = 0 := by
  induction ns with
  | nil => rfl
  | cons n rest ih =>
    simp only [startAll]
    cases hf : f n with
    | error e => rfl
    | ok n' =>
      simp only [saveCount, List.countP_append] at *
      simpa [saveCount, nodeActs, List.countP_cons, Action.isSave] using ih

theorem saveCount_cons_load (acts : List Action) :
    saveCount (Action.loadRegistry :: acts) = saveCount acts := by
  simp [saveCount, List.countP_cons, Action.isSave]

theorem saveCount_nodeActs_cons (n : Node) :
    saveCount (Action.loadRegistry :: nodeActs n) = 0 := by
  simp [saveCount, nodeActs, List.countP_cons, Action.isSave]

/-- A concrete instance record for evaluating the embedding. -/
def mkNode (name : String) (pid : Option Nat) (port : Nat) : Node :=
  { service_name := name, peer_id := pid, rpc_port := port, version := "0.98.0",
    user := "safe", binary_path := "/usr/local/bin/safenode",
    data_dir_path := "/var/safenode/" ++ name, log_dir_path := "/var/log/safenode/" ++ name,
    status := NodeStatus.Installed }

/- ### Claims -/

/-- C1: the spec says every `start` invocation persists the registry exactly
once at the end, even after a per-instance failure.  The code's `Start` arm
contains no `NodeRegistry::save` call at all: whatever the selection mode,
the outcome, and the start orchestrator's behaviour, the trace of a `start`
invocation holds zero registry saves, so `Running` statuses and peer ids
confirmed during the run are never persisted. -/
theorem start_branch_never_saves_registry
    (f : Node → Except Nat Node) (p : String → Option Nat) (reg : NodeRegistry)
    (peer_id service_name : Option String) :
    saveCount (mainStart f p reg peer_id service_name).2 = 0 := by
  unfold mainStart
  split
  · simp [saveCount, List.countP_cons, Action.isSave]
  · split
    · split
      · simp [saveCount, List.countP_cons, Action.isSave]
      · split
        · exact saveCount_nodeActs_cons _
        · exact saveCount_nodeActs_cons _
    · split
      · split
        · simp [saveCount, List.countP_cons, Action.isSave]
        · split
          · simp [saveCount, List.countP_cons, Action.isSave]
          · split
            · exact saveCount_nodeActs_cons _
            · exact saveCount_nodeActs_cons _
      · split
        · rename_i e acts heq
          have h := startAll_no_save f reg.installed_nodes
          rw [heq] at h
          simpa [saveCount_cons_load] using h
        · rename_i ns acts heq
          have h := startAll_no_save f reg.installed_nodes
          rw [heq] at h
          simpa [saveCount_cons_load] using h

/-- An install-orchestrator run that registers one instance and then fails,
leaving the partial success in the in-memory registry — the behaviour §4.3
prescribes for a partway install failure. -/
def failedInstall : NodeRegistry → Except Nat Unit × NodeRegistry :=
  fun reg => (Except.error 7, ⟨reg.installed_nodes ++ [mkNode "safenode1" none 8080]⟩)

/-- C2: the spec says an `install` invocation persists the registry exactly
once on success as well as on partial failure.  The code writes
`install(...).await?` before `node_registry.save(...)`, so when the install
orchestrator fails partway — here after registering one instance, which is
still visible in the in-memory registry — `main` returns at the `?` and the
trace holds no save at all. -/
theorem install_partial_failure_not_persisted :
    mainInstall true (Except.ok ⟨[]⟩) failedInstall =
      (Except.error (MainErr.installErr 7), [Action.loadRegistry, Action.installCall]) ∧
    saveCount (mainInstall true (Except.ok ⟨[]⟩) failedInstall).2 = 0 ∧
    (failedInstall ⟨[]⟩).2 = ⟨[mkNode "safenode1" none 8080]⟩ :=
  ⟨rfl, rfl, rfl⟩

/-- C3: `start` with both a service name and a peer id returns the
mutual-exclusion error (main.rs:94–99) whatever the registry, the start
orchestrator and the parser: the result is the error and the trace holds
only the registry load — no RPC client is built, the start orchestrator is
never invoked, and nothing is saved. -/
theorem start_both_selectors_ambiguous
    (f : Node → Except Nat Node) (p : String → Option Nat) (reg : NodeRegistry)
    (pidStr nameStr : String) :
    mainStart f p reg (some pidStr) (some nameStr) =
      (Except.error MainErr.mutuallyExclusive, [Action.loadRegistry]) := rfl

/-- C7: `install` checks `is_running_as_root()` before anything else
(main.rs:71–73): a non-root caller (non-zero effective uid) gets the error
with an empty trace — the registry is not even loaded, the install
orchestrator never runs, nothing is saved. -/
theorem install_requires_root
    (effective_uid : Nat) (loadReg : Except Nat NodeRegistry)
    (installFn : NodeRegistry → Except Nat Unit × NodeRegistry)
    (h : effective_uid ≠ 0) :
    mainInstall (is_running_as_root_unix effective_uid) loadReg installFn =
      (Except.error MainErr.notRoot, []) := by
  simp [mainInstall, is_running_as_root_unix, beq_iff_eq, h]

/-- Witness for C7 at effective uid 1000. -/
theorem install_requires_root_witness :
    (1000 : Nat) ≠ 0 ∧
      mainInstall (is_running_as_root_unix 1000) (Except.ok ⟨[]⟩)
          (fun reg => (Except.ok (), reg)) =
        (Except.error MainErr.notRoot, []) :=
  ⟨by decide, install_requires_root 1000 _ _ (by decide)⟩

/-- C9: the windows build of `is_running_as_root` (main.rs:141–145) returns
`true` unconditionally, so on windows the `install` guard never produces the
root-privilege rejection, whatever the load outcome and the install
orchestrator. -/
theorem windows_root_check_always_passes :
    is_running_as_root_windows = true ∧
      ∀ (loadReg : Except Nat NodeRegistry)
        (installFn : NodeRegistry → Except Nat Unit × NodeRegistry),
        isNotRootErr (mainInstall is_running_as_root_windows loadReg installFn).1 = false := by
  refine ⟨rfl, fun loadReg installFn => ?_⟩
  cases loadReg with
  | error e => rfl
  | ok reg =>
    cases h : installFn reg with
    | mk res newReg => cases res <;> simp [mainInstall, is_running_as_root_windows, h, isNotRootErr]

/-- C10: `start` by peer id parses the supplied string first (main.rs:111);
when parsing fails the invocation returns the parse error with only the
registry load in its trace: no registry lookup result is consulted, no RPC
client is built, the start orchestrator is never invoked, and nothing is
saved — for every registry whatsoever. -/
theorem start_peer_parse_error_aborts
    (f : Node → Except Nat Node) (p : String → Option Nat) (reg : NodeRegistry)
    (pidStr : String) (h : p pidStr = none) :
    mainStart f p reg (some pidStr) none =
      (Except.error (MainErr.peerIdParse pidStr), [Action.loadRegistry]) := by
  simp [mainStart, h]

/-- Witness for C10 on a one-node registry and a parser rejecting the
string. -/
theorem start_peer_parse_error_aborts_witness :
    (fun _ : String => (none : Option Nat)) "zzz" = none ∧
      mainStart (fun n => Except.ok n) (fun _ => none)
          ⟨[mkNode "safenode1" (some 5) 8080]⟩ (some "zzz") none =
        (Except.error (MainErr.peerIdParse "zzz"), [Action.loadRegistry]) :=
  ⟨rfl, start_peer_parse_error_aborts _ _ _ _ rfl⟩

/-- C4: `start` by service name resolves its target by exact match on the
`service_name` field (main.rs:101–106); when no record bears the name the
invocation returns the lookup error with only the registry load in its
trace: no RPC client is built, the start orchestrator is never invoked,
nothing is saved, and the registry is unchanged. -/
theorem start_by_name_not_found
    (f : Node → Except Nat Node) (p : String → Option Nat) (reg : NodeRegistry)
    (name : String) (h : ∀ x ∈ reg.installed_nodes, x.service_name ≠ name) :
    mainStart f p reg none (some name) =
      (Except.error (MainErr.noServiceNamed name), [Action.loadRegistry]) := by
  have hf : reg.installed_nodes.find? (fun x => x.service_name == name) = none := by
    apply List.find?_eq_none.mpr
    intro x hx
    simpa using h x hx
  simp [mainStart, hf]

/-- Witness for C4: a registry holding only `safenode1`, targeted with
`safenode2`. -/
theorem start_by_name_not_found_witness :
    (∀ x ∈ (⟨[mkNode "safenode1" none 8080]⟩ : NodeRegistry).installed_nodes,
        x.service_name ≠ "safenode2") ∧
      mainStart (fun n => Except.ok n) (fun _ => none)
          ⟨[mkNode "safenode1" none 8080]⟩ none (some "safenode2") =
        (Except.error (MainErr.noServiceNamed "safenode2"), [Action.loadRegistry]) :=
  ⟨by decide, start_by_name_not_found _ _ _ _ (by decide)⟩

/-- C5: `start` by peer id resolves its target by exact match of the
`peer_id` field against `Some pid` (main.rs:112–115), so a record whose peer
id was never confirmed (`peer_id = none`) can never match; when every record
either has no confirmed identity or a different one, the invocation returns
the lookup error with only the registry load in its trace. -/
theorem start_by_peer_id_not_found
    (f : Node → Except Nat Node) (p : String → Option Nat) (reg : NodeRegistry)
    (pidStr : String) (pid : Nat) (hp : p pidStr = some pid)
    (h : ∀ x ∈ reg.installed_nodes, x.peer_id = none ∨ x.peer_id ≠ some pid) :
    mainStart f p reg (some pidStr) none =
      (Except.error (MainErr.noNodeWithPeerId pid), [Action.loadRegistry]) := by
  have hf : reg.installed_nodes.find? (fun x => x.peer_id == some pid) = none := by
    apply List.find?_eq_none.mpr
    intro x hx
    rcases h x hx with h1 | h1 <;> simp [beq_iff_eq, h1]
  simp [mainStart, hp, hf]

/-- Witness for C5: one record that never ran (`peer_id` absent) and one
with a different confirmed identity, targeted with peer id 9. -/
theorem start_by_peer_id_not_found_witness :
    ((fun _ : String => some 9) "QmTarget" = some (9 : Nat)) ∧
      (∀ x ∈ (⟨[mkNode "safenode1" none 8080, mkNode "safenode2" (some 5) 8081]⟩ :
          NodeRegistry).installed_nodes, x.peer_id = none ∨ x.peer_id ≠ some 9) ∧
      mainStart (fun n => Except.ok n) (fun _ => some 9)
          ⟨[mkNode "safenode1" none 8080, mkNode "safenode2" (some 5) 8081]⟩
          (some "QmTarget") none =
        (Except.error (MainErr.noNodeWithPeerId 9), [Action.loadRegistry]) :=
  ⟨rfl, by decide, start_by_peer_id_not_found _ _ _ _ _ rfl (by decide)⟩

/- ### The all-instances loop: order and early abort -/

theorem startCalls_append (a b : List Action) :
    startCalls (a ++ b) = startCalls a ++ startCalls b := by
  simp [startCalls, List.filterMap_append]

theorem startCalls_cons_load (acts : List Action) :
    startCalls (Action.loadRegistry :: acts) = startCalls acts := by
  simp [startCalls]

theorem startCalls_nodeActs (n : Node) :
    startCalls (nodeActs n) = [n.service_name] := by
  simp [startCalls, nodeActs]

/-- With neither selector, `mainStart` is the all-instances loop: its result
is the loop's, its trace the load followed by the loop's trace. -/
theorem mainStart_all_eq (f : Node → Except Nat Node) (p : String → Option Nat)
    (reg : NodeRegistry) :
    mainStart f p reg none none =
      (((startAll f reg.installed_nodes).1.mapError MainErr.startErr).map
          (fun ns => (⟨ns⟩ : NodeRegistry)),
        Action.loadRegistry :: (startAll f reg.installed_nodes).2) := by
  have h : mainStart f p reg none none =
      (match startAll f reg.installed_nodes with
        | (Except.error e, acts) =>
          (Except.error (MainErr.startErr e), Action.loadRegistry :: acts)
        | (Except.ok ns, acts) => (Except.ok ⟨ns⟩, Action.loadRegistry :: acts)) := rfl
  rw [h]
  cases hsa : startAll f reg.installed_nodes with
  | mk res acts => cases res <;> simp [Except.map, Except.mapError]

/-- The loop aborts at the first failing node: with every node of `pre`
starting successfully and `n` failing, the loop fails with `n`'s error and
its trace holds exactly the start calls for `pre` (in order) and `n` — the
nodes of `post` are never attempted. -/
theorem startAll_append_abort (f : Node → Except Nat Node) (n : Node) (e : Nat)
    (he : f n = Except.error e) (pre post : List Node)
    (hok : ∀ x ∈ pre, (f x).isOk = true) :
    (startAll f (pre ++ n :: post)).1 = Except.error e ∧
      startCalls (startAll f (pre ++ n :: post)).2 =
        pre.map Node.service_name ++ [n.service_name] := by
  induction pre with
  | nil =>
    constructor
    · simp [startAll, he]
    · simp [startAll, he, startCalls_nodeActs]
  | cons x pre ih =>
    have hx : (f x).isOk = true := hok x (List.mem_cons_self x pre)
    obtain ⟨x', hx'⟩ : ∃ y, f x = Except.ok y := by
      cases hfx : f x with
      | error a => rw [hfx] at hx; simp [Except.isOk, Except.toBool] at hx
      | ok y => exact ⟨y, rfl⟩
    obtain ⟨ih1, ih2⟩ := ih (fun y hy => hok y (List.mem_cons_of_mem x hy))
    constructor
    · simp only [List.cons_append, startAll, hx', List.append_eq]
      rw [ih1]
      rfl
    · simp only [List.cons_append, startAll, hx', List.append_eq]
      rw [startCalls_append, startCalls_nodeActs, ih2]
      simp

/-- C6: `start` with neither selector targets all registered instances and
processes them one at a time in registry order (main.rs:126–129); the `?` on
the per-instance call aborts the loop at the first failure, so when every
node before `n` starts and `n` fails, the invocation fails with `n`'s error
and exactly the nodes up to and including `n` were handed to the start
orchestrator, in registry order — the nodes after `n` are never attempted. -/
theorem start_all_in_order_abort
    (f : Node → Except Nat Node) (p : String → Option Nat)
    (pre post : List Node) (n : Node) (e : Nat)
    (hok : ∀ x ∈ pre, (f x).isOk = true) (he : f n = Except.error e) :
    (mainStart f p ⟨pre ++ n :: post⟩ none none).1 = Except.error (MainErr.startErr e) ∧
      startCalls (mainStart f p ⟨pre ++ n :: post⟩ none none).2 =
        pre.map Node.service_name ++ [n.service_name] := by
  obtain ⟨h1, h2⟩ := startAll_append_abort f n e he pre post hok
  have hreg : (⟨pre ++ n :: post⟩ : NodeRegistry).installed_nodes = pre ++ n :: post := rfl
  rw [mainStart_all_eq, hreg]
  constructor
  · rw [h1]
    rfl
  · rw [startCalls_cons_load, h2]

/-- Every start call the all-instances loop issues targets a node of its
argument list and carries that node's loopback RPC address. -/
theorem startAll_calls_mem (f : Node → Except Nat Node) (ns : List Node)
    (s a : String) (h : Action.callStart s a ∈ (startAll f ns).2) :
    ∃ nd, nd ∈ ns ∧ nd.service_name = s ∧ a = rpcAddr nd.rpc_port := by
  induction ns with
  | nil => simp [startAll] at h
  | cons n rest ih =>
    simp only [startAll] at h
    cases hf : f n with
    | error e =>
      rw [hf] at h
      simp only [nodeActs, List.mem_cons, List.not_mem_nil, or_false,
        Action.callStart.injEq, reduceCtorEq, false_or] at h
      exact ⟨n, List.mem_cons_self n rest, h.1.symm, h.2⟩
    | ok n' =>
      rw [hf] at h
      simp only [List.mem_append] at h
      rcases h with h | h
      · simp only [nodeActs, List.mem_cons, List.not_mem_nil, or_false,
          Action.callStart.injEq, reduceCtorEq, false_or] at h
        exact ⟨n, List.mem_cons_self n rest, h.1.symm, h.2⟩
      · obtain ⟨nd, hmem, hs, ha⟩ := ih h
        exact ⟨nd, List.mem_cons_of_mem n hmem, hs, ha⟩

/-- C8: whatever the selection mode, every invocation of the start
orchestrator that a `start` run issues is for a node of the loaded registry
and receives an RPC client constructed at `127.0.0.1:<rpc_port>` with that
same node's registered port (main.rs:108, 123, 127). -/
theorem start_rpc_client_loopback_port
    (f : Node → Except Nat Node) (p : String → Option Nat) (reg : NodeRegistry)
    (peer_id service_name : Option String) (s a : String)
    (h : Action.callStart s a ∈ (mainStart f p reg peer_id service_name).2) :
    ∃ nd, nd ∈ reg.installed_nodes ∧ nd.service_name = s ∧
      a = "127.0.0.1:" ++ toString nd.rpc_port := by
  unfold mainStart at h
  split at h
  · simp at h
  · split at h
    · split at h
      · simp at h
      · rename_i node heq
        split at h
        all_goals
          simp only [List.mem_cons, nodeActs, List.not_mem_nil, or_false,
            Action.callStart.injEq, reduceCtorEq, false_or] at h
          exact ⟨node, List.mem_of_find?_eq_some heq, h.1.symm, h.2⟩
    · split at h
      · split at h
        · simp at h
        · split at h
          · simp at h
          · rename_i node heq
            split at h
            all_goals
              simp only [List.mem_cons, nodeActs, List.not_mem_nil, or_false,
                Action.callStart.injEq, reduceCtorEq, false_or] at h
              exact ⟨node, List.mem_of_find?_eq_some heq, h.1.symm, h.2⟩
      · split at h
        · rename_i e acts heq
          simp only [List.mem_cons, reduceCtorEq, false_or] at h
          have h2 : Action.callStart s a ∈ (startAll f reg.installed_nodes).2 := by
            rw [heq]; exact h
          exact startAll_calls_mem f reg.installed_nodes s a h2
        · rename_i ns acts heq
          simp only [List.mem_cons, reduceCtorEq, false_or] at h
          have h2 : Action.callStart s a ∈ (startAll f reg.installed_nodes).2 := by
            rw [heq]; exact h
          exact startAll_calls_mem f reg.installed_nodes s a h2

/-- Witness for C8: a one-node registry started in all-instances mode; the
start call for `safenode1` carries the loopback address with its port
8080. -/
theorem start_rpc_client_loopback_port_witness :
    Action.callStart "safenode1" "127.0.0.1:8080" ∈
        (mainStart (fun n => Except.ok n) (fun _ => none)
          ⟨[mkNode "safenode1" (some 4) 8080]⟩ none none).2 ∧
      ∃ nd, nd ∈ (⟨[mkNode "safenode1" (some 4) 8080]⟩ : NodeRegistry).installed_nodes ∧
        nd.service_name = "safenode1" ∧
        "127.0.0.1:8080" = "127.0.0.1:" ++ toString nd.rpc_port :=
  ⟨by decide,
    start_rpc_client_loopback_port (fun n => Except.ok n) (fun _ => none)
      ⟨[mkNode "safenode1" (some 4) 8080]⟩ none none "safenode1" "127.0.0.1:8080"
      (by decide)⟩

/-- The one-node-fails start orchestrator used by the C6 witness. -/
def failOnSecond : Node → Except Nat Node :=
  fun nd => if nd.service_name == "safenode2" then Except.error 3 else Except.ok nd

/-- Witness for C6: three registered instances; the second fails to start,
so exactly the first and second are attempted, in order. -/
theorem start_all_in_order_abort_witness :
    (∀ x ∈ [mkNode "safenode1" none 8080], (failOnSecond x).isOk = true) ∧
      failOnSecond (mkNode "safenode2" none 8081) = Except.error 3 ∧
      ((mainStart failOnSecond (fun _ => none)
            ⟨[mkNode "safenode1" none 8080] ++
              mkNode "safenode2" none 8081 :: [mkNode "safenode3" none 8082]⟩
            none none).1 = Except.error (MainErr.startErr 3) ∧
        startCalls (mainStart failOnSecond (fun _ => none)
            ⟨[mkNode "safenode1" none 8080] ++
              mkNode "safenode2" none 8081 :: [mkNode "safenode3" none 8082]⟩
            none none).2 =
          [mkNode "safenode1" none 8080].map Node.service_name ++
            [(mkNode "safenode2" none 8081).service_name]) :=
  ⟨by decide, rfl,
    start_all_in_order_abort failOnSecond (fun _ => none)
      [mkNode "safenode1" none 8080] [mkNode "safenode3" none 8082]
      (mkNode "safenode2" none 8081) 3 (by decide) rfl⟩

end SnNode
